import Mathlib

/-!
Verification of `feedback_loop.py`: a feedback loop that collects a metrics
snapshot, optionally stores it in a SQLite table, analyzes it against fixed
thresholds, and applies a recommendation.

Modelling conventions:
* A Python `Dict[str, Any]` metrics snapshot is a `MetricsData` record whose
  fields are `Option`-valued: `none` models an absent key, so `dict.get`
  returns `none` and `dict[k]` raises `KeyError`.
* Percentage values are rationals.  All numeric literals occurring in the
  source (75.0, 80.0, 85.0) are exactly representable as binary floats, and
  every comparison the source performs between them agrees with the
  comparison of the corresponding rationals, so `ℚ` is a faithful model.
* Raising an exception is modelled with `Except String`; the message records
  the Python exception class.
* The insights dictionary `Dict[str, str]` is an association list in
  insertion order; Python dict keys are unique, and all dictionaries built
  by the source insert distinct keys.
-/

/-- A metrics snapshot dictionary, as produced by the collector and consumed
by the analyzer and the store.  `none` models an absent key. -/
structure MetricsData where
  timestamp : Option String
  cpu_usage : Option ℚ
  memory_usage : Option ℚ
  system_id : Option String
deriving Repr, DecidableEq

/-- The insights dictionary `Dict[str, str]` returned by the analyzer. -/
abbrev Insights := List (String × String)

/-- `SystemMetricsCollector.collect_data`: returns the hard-coded snapshot.
The only run-dependent part, `datetime.now().isoformat()`, is passed in as
the `now` argument. -/
def collect_data (now : String) : MetricsData :=
  { timestamp := some now
    cpu_usage := some 75
    memory_usage := some 85
    system_id := some "primary_server" }

/-- One row of the `system_metrics` SQLite table (the autoincrement primary
key is the row's position in the list and is left implicit). -/
structure MetricsRow where
  timestamp : String
  cpu_usage : ℚ
  memory_usage : ℚ
  system_id : String
deriving Repr, DecidableEq

/-- `SystemMetricsCollector.store_data`: the table is a list of rows; the
insert appends one row built from `data['timestamp']`, `data['cpu_usage']`,
`data['memory_usage']`, `data['system_id']`.  Subscripting a dict at an
absent key raises `KeyError`. -/
def store_data (db : List MetricsRow) (data : MetricsData) :
    Except String (List MetricsRow) :=
  match data.timestamp with
  | none => .error "KeyError: timestamp"
  | some t =>
    match data.cpu_usage with
    | none => .error "KeyError: cpu_usage"
    | some c =>
      match data.memory_usage with
      | none => .error "KeyError: memory_usage"
      | some m =>
        match data.system_id with
        | none => .error "KeyError: system_id"
        | some s =>
          .ok (db ++ [{ timestamp := t, cpu_usage := c,
                        memory_usage := m, system_id := s }])

/-- `IntegrationAnalyzer.analyze_data`: starts from an empty insights dict,
adds the `'cpu'` entry when `data.get('cpu_usage') > 80.0` and the
`'memory'` entry when `data.get('memory_usage') > 85.0`.  When a key is
absent, `dict.get` yields `None` and the comparison `None > float` raises
`TypeError`; the cpu comparison is evaluated first. -/
def analyze_data (data : MetricsData) : Except String Insights :=
  match data.cpu_usage with
  | none => .error "TypeError: NoneType > float"
  | some c =>
    let insights : Insights :=
      if c > 80 then
        [("cpu", "High CPU usage detected, consider load balancing.")]
      else []
    match data.memory_usage with
    | none => .error "TypeError: NoneType > float"
    | some m =>
      let insights : Insights :=
        if m > 85 then
          insights ++ [("memory", "Memory usage is critical; potential memory leak.")]
        else insights
      .ok insights

/-- `OptimizationEngine.apply_recommendation`: `'cpu' in recommendation`
returns `True`; else `'memory' in recommendation` returns `True`; else
`False`.  Membership in a Python dict tests the keys. -/
def apply_recommendation (recommendation : Insights) : Bool :=
  if recommendation.any (fun kv => kv.1 = "cpu") then true
  else if recommendation.any (fun kv => kv.1 = "memory") then true
  else false

/-- The body of the `try` block of
`FeedbackCollectorAgent.collect_and_analyze`, parameterised over the three
component calls (each of which may raise): collect the data, analyze it,
and when the insights dict is non-empty (truthy) apply the recommendation,
otherwise return `True`. -/
def pipeline_body (collect : Except String MetricsData)
    (analyze : MetricsData → Except String Insights)
    (applyRec : Insights → Except String Bool) : Except String Bool := do
  let data ← collect
  let insights ← analyze data
  if insights ≠ [] then applyRec insights else pure true

/-- The whole of `collect_and_analyze`'s try/except: any exception escaping
the body is caught by the single `except Exception` handler, which logs and
returns `False`. -/
def run_pipeline (collect : Except String MetricsData)
    (analyze : MetricsData → Except String Insights)
    (applyRec : Insights → Except String Bool) : Bool :=
  match pipeline_body collect analyze applyRec with
  | .ok b => b
  | .error _ => false

/-- `FeedbackCollectorAgent.collect_and_analyze`, instantiated with the
concrete components the constructor wires in: `SystemMetricsCollector`,
`IntegrationAnalyzer`, `OptimizationEngine`.  `apply_recommendation` is
total, so its slot never raises. -/
def collect_and_analyze (now : String) : Bool :=
  run_pipeline (.ok (collect_data now)) analyze_data
    (fun insights => .ok (apply_recommendation insights))

/-- Labels for the component calls `collect_and_analyze` can perform. -/
inductive PipelineStep where
  | collect
  | store
  | analyze
  | applyOpt
deriving DecidableEq, Repr

/-- The sequence of component calls one invocation of `collect_and_analyze`
performs, read off the source body: `collect_data`, then `analyze_data`,
then `apply_recommendation` only when the insights are non-empty.  The
source body contains no call to `store_data`. -/
def collect_and_analyze_steps (now : String) : List PipelineStep :=
  match analyze_data (collect_data now) with
  | .error _ => [.collect, .analyze]
  | .ok insights =>
    if insights ≠ [] then [.collect, .analyze, .applyOpt]
    else [.collect, .analyze]

/-! ## Helper lemmas shared between the claims -/

/-- On the stub snapshot the analyzer produces no insights: 75.0 > 80.0 and
85.0 > 85.0 are both false. -/
theorem analyze_collect_eq (now : String) :
    analyze_data (collect_data now) = Except.ok [] := by
  norm_num [analyze_data, collect_data]

/-- When `cpu_usage` is absent, the cpu comparison raises `TypeError`. -/
theorem analyze_data_no_cpu (data : MetricsData) (h : data.cpu_usage = none) :
    analyze_data data = Except.error "TypeError: NoneType > float" := by
  unfold analyze_data
  rw [h]

/-- When `cpu_usage` is present but `memory_usage` is absent, the memory
comparison raises `TypeError`. -/
theorem analyze_data_no_memory (data : MetricsData) (c : ℚ)
    (hc : data.cpu_usage = some c) (hm : data.memory_usage = none) :
    analyze_data data = Except.error "TypeError: NoneType > float" := by
  unfold analyze_data
  rw [hc, hm]

/-- When both keys are present the analyzer returns normally, and its result
is the concatenation of the two conditional entries. -/
theorem analyze_data_some (c m : ℚ) (data : MetricsData)
    (hc : data.cpu_usage = some c) (hm : data.memory_usage = some m) :
    analyze_data data = Except.ok
      ((if c > 80 then
          [("cpu", "High CPU usage detected, consider load balancing.")]
        else [])
        ++ (if m > 85 then
          [("memory", "Memory usage is critical; potential memory leak.")]
        else [])) := by
  unfold analyze_data
  rw [hc, hm]
  by_cases h1 : c > 80 <;> by_cases h2 : m > 85 <;> simp [h1, h2]

/-- A normal return of the analyzer requires both keys present. -/
theorem analyze_ok_fields (data : MetricsData) (insights : Insights)
    (h : analyze_data data = Except.ok insights) :
    ∃ c m, data.cpu_usage = some c ∧ data.memory_usage = some m := by
  cases hc : data.cpu_usage with
  | none => rw [analyze_data_no_cpu data hc] at h; cases h
  | some c =>
    cases hm : data.memory_usage with
    | none => rw [analyze_data_no_memory data c hc hm] at h; cases h
    | some m => exact ⟨c, m, rfl, rfl⟩

/-- Every key of a normally returned insights dict is `'cpu'` or
`'memory'`. -/
theorem analyze_keys_subset (data : MetricsData) (insights : Insights)
    (h : analyze_data data = Except.ok insights) :
    ∀ k ∈ insights.map Prod.fst, k = "cpu" ∨ k = "memory" := by
  obtain ⟨c, m, hc, hm⟩ := analyze_ok_fields data insights h
  rw [analyze_data_some c m data hc hm] at h
  injection h with h
  subst h
  by_cases h1 : c > 80 <;> by_cases h2 : m > 85 <;> simp [h1, h2]

/-- The optimizer succeeds on any non-empty dict whose keys are drawn from
`'cpu'` and `'memory'`. -/
theorem apply_recommendation_of_keys (insights : Insights)
    (hne : insights ≠ [])
    (hkeys : ∀ k ∈ insights.map Prod.fst, k = "cpu" ∨ k = "memory") :
    apply_recommendation insights = true := by
  cases insights with
  | nil => exact absurd rfl hne
  | cons kv tl =>
    have hk := hkeys kv.1 (by simp)
    unfold apply_recommendation
    rcases hk with hk | hk
    · simp [hk]
    · by_cases hcpu : ((kv :: tl).any fun x => decide (x.1 = "cpu")) = true
      · simp [hcpu]
      · simp [hcpu, hk]

/-- Unfolding the pipeline body once the collector has returned. -/
theorem pipeline_body_ok (data : MetricsData)
    (analyze : MetricsData → Except String Insights)
    (applyRec : Insights → Except String Bool) :
    pipeline_body (Except.ok data) analyze applyRec
      = (analyze data >>= fun insights =>
          if insights ≠ [] then applyRec insights else pure true) := rfl

/-- A pipeline body that returns normally determines the boolean result. -/
theorem run_pipeline_ok (collect : Except String MetricsData)
    (analyze : MetricsData → Except String Insights)
    (applyRec : Insights → Except String Bool) (b : Bool)
    (h : pipeline_body collect analyze applyRec = Except.ok b) :
    run_pipeline collect analyze applyRec = b := by
  unfold run_pipeline
  rw [h]

/-! ## The claims -/

/-- C1: for the collector's hard-coded snapshot (cpu_usage = 75.0,
memory_usage = 85.0), `analyze_data` returns a mapping that does not
contain the `'memory'` key: the memory check is a strict greater-than
against 85.0, so the critical-memory insight is never produced on any run
using the stub data. -/
theorem stub_snapshot_never_flags_memory (now : String) (insights : Insights)
    (h : analyze_data (collect_data now) = Except.ok insights) :
    "memory" ∉ insights.map Prod.fst := by
  rw [analyze_collect_eq] at h
  injection h with h
  subst h
  simp

/-- C1 witness: the property instantiated at a concrete run. -/
theorem stub_snapshot_never_flags_memory_witness :
    analyze_data (collect_data "2024-01-01T00:00:00") = Except.ok [] ∧
      "memory" ∉ ([] : Insights).map Prod.fst :=
  ⟨analyze_collect_eq _,
    stub_snapshot_never_flags_memory "2024-01-01T00:00:00" []
      (analyze_collect_eq _)⟩

/-- C2: evaluating the code at cpu_usage = 75.0, memory_usage = 85.0: the
strict `>` against the 85.0 threshold does not fire, so the result is the
empty dict, which does not contain the `'memory'` key the claim requires. -/
theorem analyze_at_memory_threshold :
    analyze_data { timestamp := some "2024-01-01T00:00:00",
                   cpu_usage := some 75, memory_usage := some 85,
                   system_id := some "primary_server" } = Except.ok [] := by
  norm_num [analyze_data]

/-- C3: on any input with cpu_usage = 75.0, a normal return of
`analyze_data` contains no `'cpu'` key, because 75.0 is not greater than
the 80.0 threshold. -/
theorem cpu_75_not_flagged (data : MetricsData)
    (h75 : data.cpu_usage = some 75) (insights : Insights)
    (h : analyze_data data = Except.ok insights) :
    "cpu" ∉ insights.map Prod.fst := by
  obtain ⟨c, m, hc, hm⟩ := analyze_ok_fields data insights h
  rw [h75] at hc
  injection hc with hc
  subst hc
  rw [analyze_data_some 75 m data h75 hm] at h
  injection h with h
  subst h
  by_cases h2 : m > 85 <;>
    simp [h2, show ¬((75 : ℚ) > 80) by norm_num]

/-- C3 witness: the property instantiated at a concrete input. -/
theorem cpu_75_not_flagged_witness :
    "cpu" ∉ (([] : Insights)).map Prod.fst :=
  cpu_75_not_flagged
    { timestamp := some "t", cpu_usage := some 75,
      memory_usage := some 85, system_id := some "s" }
    rfl [] (by norm_num [analyze_data])

/-- C4: `apply_recommendation` returns true on any mapping whose only key
is `'memory'`, and false on the empty mapping. -/
theorem apply_memory_only_true_empty_false :
    (∀ rec : Insights, rec.map Prod.fst = ["memory"] →
        apply_recommendation rec = true)
    ∧ apply_recommendation [] = false := by
  refine ⟨?_, rfl⟩
  intro rec h
  have hne : rec ≠ [] := by
    intro h0
    subst h0
    simp at h
  refine apply_recommendation_of_keys rec hne ?_
  rw [h]
  simp

/-- C4 witness: the property instantiated at concrete mappings. -/
theorem apply_memory_only_true_empty_false_witness :
    apply_recommendation
        [("memory", "Memory usage is critical; potential memory leak.")] = true
    ∧ apply_recommendation [] = false :=
  ⟨apply_memory_only_true_empty_false.1 _ rfl,
    apply_memory_only_true_empty_false.2⟩

/-- C5: on every non-exceptional run (the analyzer returned normally),
`collect_and_analyze` returns true when the insights dict is empty and the
value of `apply_recommendation` on the insights otherwise. -/
theorem collect_and_analyze_returns (now : String) (insights : Insights)
    (h : analyze_data (collect_data now) = Except.ok insights) :
    collect_and_analyze now =
      (if insights = [] then true else apply_recommendation insights) := by
  rw [analyze_collect_eq] at h
  injection h with h
  subst h
  rfl

/-- C5 witness: the property instantiated at a concrete run. -/
theorem collect_and_analyze_returns_witness :
    collect_and_analyze "2024-01-01T00:00:00" =
      (if ([] : Insights) = [] then true else apply_recommendation []) :=
  collect_and_analyze_returns "2024-01-01T00:00:00" []
    (analyze_collect_eq _)

/-- C6: any exception raised inside the pipeline body is caught by the
single catch-all boundary and makes `collect_and_analyze` return false;
`run_pipeline` is a total function into `Bool`, so no exception propagates
to the caller. -/
theorem pipeline_error_caught (collect : Except String MetricsData)
    (analyze : MetricsData → Except String Insights)
    (applyRec : Insights → Except String Bool) (e : String)
    (h : pipeline_body collect analyze applyRec = Except.error e) :
    run_pipeline collect analyze applyRec = false := by
  unfold run_pipeline
  rw [h]

/-- C6 witness: a concrete failing collector is caught. -/
theorem pipeline_error_caught_witness :
    run_pipeline (Except.error "boom") analyze_data
      (fun insights => Except.ok (apply_recommendation insights)) = false :=
  pipeline_error_caught _ _ _ "boom" rfl

/-- C7 counterexample: at a concrete invocation, the sequence of component
calls made by `collect_and_analyze` contains no store step: the orchestrator
never calls `store_data`, so it does not execute the four steps
collect, store, analyze, apply. -/
theorem no_store_step_at_concrete_run :
    PipelineStep.store ∉ collect_and_analyze_steps "2024-01-01T00:00:00" := by
  decide

/-- C7 (amended): a single invocation of the orchestrator executes, inside
its one try/except wrapper, the sequential steps collect then analyze, and
would apply an optimization only when insights are produced — which the
stub data never yields; it never stores the snapshot, since `store_data`
is not called by `collect_and_analyze`. -/
theorem orchestrator_step_sequence (now : String) :
    collect_and_analyze_steps now = [PipelineStep.collect, PipelineStep.analyze]
    ∧ PipelineStep.store ∉ collect_and_analyze_steps now := by
  have h : collect_and_analyze_steps now
      = [PipelineStep.collect, PipelineStep.analyze] := by
    unfold collect_and_analyze_steps
    rw [analyze_collect_eq]
    simp
  refine ⟨h, ?_⟩
  rw [h]
  decide

/-- C8: for every input dict carrying all four keys, `store_data` appends
exactly one row holding those four values to the `system_metrics` table and
leaves every previously stored row unchanged. -/
theorem store_data_appends_row (db : List MetricsRow) (data : MetricsData)
    (t : String) (c m : ℚ) (s : String)
    (ht : data.timestamp = some t) (hc : data.cpu_usage = some c)
    (hm : data.memory_usage = some m) (hs : data.system_id = some s) :
    store_data db data =
      Except.ok (db ++ [{ timestamp := t, cpu_usage := c,
                          memory_usage := m, system_id := s }]) := by
  unfold store_data
  rw [ht, hc, hm, hs]

/-- C8 witness: the property instantiated at a concrete table and dict. -/
theorem store_data_appends_row_witness :
    store_data [] { timestamp := some "t", cpu_usage := some 75,
                    memory_usage := some 85,
                    system_id := some "primary_server" }
      = Except.ok [{ timestamp := "t", cpu_usage := 75,
                     memory_usage := 85, system_id := "primary_server" }] :=
  store_data_appends_row [] _ "t" 75 85 "primary_server" rfl rfl rfl rfl

/-- C9: an input lacking `cpu_usage` makes `analyze_data` raise; so does an
input with `cpu_usage` present but `memory_usage` absent; and the analyzer
returns normally exactly when both keys are present (present values are
rationals, hence comparable with a float). -/
theorem analyze_data_key_requirements (data : MetricsData) :
    (data.cpu_usage = none →
        analyze_data data = Except.error "TypeError: NoneType > float")
    ∧ (∀ c : ℚ, data.cpu_usage = some c → data.memory_usage = none →
        analyze_data data = Except.error "TypeError: NoneType > float")
    ∧ ((∃ insights, analyze_data data = Except.ok insights) ↔
        data.cpu_usage.isSome ∧ data.memory_usage.isSome) := by
  refine ⟨analyze_data_no_cpu data,
    fun c hc hm => analyze_data_no_memory data c hc hm, ?_, ?_⟩
  · rintro ⟨insights, h⟩
    obtain ⟨c, m, hc, hm⟩ := analyze_ok_fields data insights h
    simp [hc, hm]
  · rintro ⟨h1, h2⟩
    obtain ⟨c, hc⟩ := Option.isSome_iff_exists.mp h1
    obtain ⟨m, hm⟩ := Option.isSome_iff_exists.mp h2
    exact ⟨_, analyze_data_some c m data hc hm⟩

/-- C9 witness: a concrete input lacking `cpu_usage` raises. -/
theorem analyze_data_key_requirements_witness :
    analyze_data { timestamp := some "t", cpu_usage := none,
                   memory_usage := some 85, system_id := some "s" }
      = Except.error "TypeError: NoneType > float" :=
  (analyze_data_key_requirements _).1 rfl

/-- C10: every normal result of the analyzer has keys drawn from `'cpu'`
and `'memory'`; consequently the optimizer succeeds on any non-empty
result, and the orchestrator can return false only through its exception
handler. -/
theorem insights_keys_and_nonempty_success :
    (∀ (data : MetricsData) (insights : Insights),
        analyze_data data = Except.ok insights →
          (∀ k ∈ insights.map Prod.fst, k = "cpu" ∨ k = "memory")
          ∧ (insights ≠ [] → apply_recommendation insights = true))
    ∧ (∀ collect : Except String MetricsData,
        run_pipeline collect analyze_data
            (fun insights => Except.ok (apply_recommendation insights))
          = false →
        ∃ e, pipeline_body collect analyze_data
            (fun insights => Except.ok (apply_recommendation insights))
          = Except.error e) := by
  constructor
  · intro data insights h
    have hkeys := analyze_keys_subset data insights h
    exact ⟨hkeys, fun hne => apply_recommendation_of_keys insights hne hkeys⟩
  · intro collect hrun
    cases collect with
    | error e => exact ⟨e, rfl⟩
    | ok data =>
      cases ha : analyze_data data with
      | error e =>
        refine ⟨e, ?_⟩
        rw [pipeline_body_ok, ha]
        rfl
      | ok insights =>
        exfalso
        by_cases hne : insights ≠ []
        · have hres : run_pipeline (Except.ok data) analyze_data
              (fun i => Except.ok (apply_recommendation i))
              = apply_recommendation insights := by
            refine run_pipeline_ok _ _ _ _ ?_
            rw [pipeline_body_ok, ha]
            show (if insights ≠ [] then Except.ok (apply_recommendation insights)
                else pure true)
              = Except.ok (apply_recommendation insights)
            exact if_pos hne
          rw [hres] at hrun
          have htrue := apply_recommendation_of_keys insights hne
            (analyze_keys_subset data insights ha)
          rw [htrue] at hrun
          exact Bool.noConfusion hrun
        · have hres : run_pipeline (Except.ok data) analyze_data
              (fun i => Except.ok (apply_recommendation i)) = true := by
            refine run_pipeline_ok _ _ _ _ ?_
            rw [pipeline_body_ok, ha]
            show (if insights ≠ [] then Except.ok (apply_recommendation insights)
                else pure true)
              = Except.ok true
            exact if_neg hne
          rw [hres] at hrun
          exact Bool.noConfusion hrun

/-- C10 witness: a failing collector is the only route to false. -/
theorem insights_keys_and_nonempty_success_witness :
    ∃ e, pipeline_body (Except.error "boom") analyze_data
        (fun insights => Except.ok (apply_recommendation insights))
      = Except.error e :=
  insights_keys_and_nonempty_success.2 (Except.error "boom") rfl
